import Mathlib

/-!
# Verification of the `@plus99/secure-jwt` trust validation engine

Shallow embedding of the TypeScript sources (`src/sign.ts`, `src/verify.ts`,
`src/utils.ts`, `src/keys.ts`, `src/security.ts`, `src/enterprise.ts`) in Lean 4,
together with theorems settling the specification claims.

Modelling conventions:
* JWT claim sets are association lists `List (String × JValue)`; object spread
  (`{...payload, iat: t}`) is `setClaim`, which replaces in place or appends.
* Machine numbers are `Int` (Unix timestamps in seconds; the JWKS cache uses
  milliseconds exactly as the source does with `Date.now()`).
* JavaScript truthiness is modelled explicitly (`truthyStr`, `truthyTime`,
  `claimTruthy`): `undefined`, `""`, `0` and `false` are falsy.
* The external cryptography collaborator (`jose`) is idealized: a
  signature is a symbolic record of (algorithm, key, signed claims), so that
  signature verification succeeds exactly for the same algorithm, key and
  claims.  Its failure modes are the symbolic kinds of `JoseErr`, each
  carrying the message the library emits; the `catch` clause of `verifyJWT`
  classifies the caught error by message substring exactly as the source
  does.  The remote key-set path only serves asymmetric algorithms, as the
  collaborator's JWKS key resolution does.
* Network access (JWKS fetch, remote key sets) is an oracle parameter.
-/

namespace SecureJwt

set_option maxHeartbeats 1000000

/-! ## JSON-ish claim values

Claim values as the engine actually uses them: strings, integers, booleans,
string arrays (the `aud` claim), and null.  Temporal claims (`iat`, `exp`,
`nbf`) are integers. -/

inductive JValue where
  | str (s : String)
  | num (n : Int)
  | bool (b : Bool)
  | strArr (xs : List String)
  | null
  deriving DecidableEq, Repr

/-- A claim set: an ordered association list, keys unique by construction. -/
abbrev Claims := List (String × JValue)

/-- Lookup of a claim value (JS property access `payload[k]`). -/
def claimLookup : Claims → String → Option JValue
  | [], _ => none
  | p :: t, k => if p.1 = k then some p.2 else claimLookup t k

/-- JS object update `{...c, k: v}`: replace in place if the key exists,
append otherwise. -/
def setClaim (c : Claims) (k : String) (v : JValue) : Claims :=
  if (claimLookup c k).isSome then
    c.map (fun p => if p.1 = k then (k, v) else p)
  else
    c ++ [(k, v)]

/-- JS truthiness of a claim value (`!!payload[k]`): absent, `""`, `0`,
`false` and `null` are falsy; arrays are truthy. -/
def claimTruthy (c : Claims) (k : String) : Bool :=
  match claimLookup c k with
  | none => false
  | some (.str s) => s ≠ ""
  | some (.num n) => n ≠ 0
  | some (.bool b) => b
  | some (.strArr _) => true
  | some .null => false

/-- Numeric claim access: `payload.k` when it is a number. -/
def claimNum (c : Claims) (k : String) : Option Int :=
  match claimLookup c k with
  | some (.num n) => some n
  | _ => none

/-! ## `src/utils.ts` -/

/-- `isSecureAlgorithm` from `src/utils.ts`: the fixed allow-list; `none` is
not a member. -/
def secureAlgos : List String :=
  ["HS256", "HS384", "HS512", "RS256", "RS384", "RS512",
   "ES256", "ES384", "ES512", "EdDSA"]

def isSecureAlgorithm (algorithm : String) : Bool :=
  secureAlgos.contains algorithm

/-- `parseTimeToSeconds` from `src/utils.ts` restricted to strings: regex
`^(\d+)([smhdw])$`, unit multiplier, error on anything else. -/
def parseTimeToSeconds (time : String) : Option Int :=
  let chars := time.toList
  match chars.getLast? with
  | none => none
  | some unit =>
    let digits := chars.dropLast
    if digits ≠ [] ∧ digits.all Char.isDigit then
      let value : Int :=
        Int.ofNat (digits.foldl (fun n c => n * 10 + (c.toNat - '0'.toNat)) 0)
      match unit with
      | 's' => some value
      | 'm' => some (value * 60)
      | 'h' => some (value * 3600)
      | 'd' => some (value * 86400)
      | 'w' => some (value * 604800)
      | _ => none
    else none

/-! ## `src/keys.ts` : key material validation -/

/-- Does the string contain `pat` as a contiguous substring
(JS `String.prototype.includes`)? -/
def subList (pat : List Char) : List Char → Bool
  | [] => pat.isEmpty
  | c :: t => pat.isPrefixOf (c :: t) || subList pat t

def strIncludes (s pat : String) : Bool :=
  subList pat.toList s.toList

/-- JS `String.prototype.startsWith`. -/
def strStartsWith (s pre : String) : Bool :=
  pre.toList.isPrefixOf s.toList

/-- `validateKeyForAlgorithm` from `src/keys.ts`.  Keys are modelled as
strings (`key.toString()` in the source).  Note the HMAC minimum-length
check counts string characters (`keyString.length`), not bytes. -/
def validateKeyForAlgorithm (key : String) (algorithm : String) :
    Except String Unit := do
  if key = "" then
    throw "Key is required"
  if strStartsWith algorithm "HS" then
    if key.length < 32 then
      throw "HMAC key should be at least 32 characters for security"
  if strStartsWith algorithm "RS" || strStartsWith algorithm "ES" then
    if ¬ (strIncludes key "-----BEGIN" || strIncludes key "-----END") then
      throw "RSA/ECDSA keys should be in PEM format"
  return ()

/-! ## `src/sign.ts` : credential signing -/

/-- `expiresIn` / `notBefore` option: `string | number` in the source. -/
inductive TimeOpt where
  | str (s : String)
  | num (n : Int)
  deriving DecidableEq, Repr

/-- JS truthiness of an optional `string | number` value. -/
def truthyTime : Option TimeOpt → Bool
  | none => false
  | some (.str s) => s ≠ ""
  | some (.num n) => n ≠ 0

/-- JS truthiness of an optional string. -/
def truthyStr : Option String → Bool
  | none => false
  | some s => s ≠ ""

/-- `SignOptions` from `src/types.ts` (the secret as a string, as
`options.secret.toString()` normalizes it). -/
structure SignOptions where
  secret : String
  alg : String
  expiresIn : Option TimeOpt := none
  notBefore : Option TimeOpt := none
  audience : Option String := none
  issuer : Option String := none
  subject : Option String := none
  deriving Repr

/-- Modelled from the spec: the duration grammar of the cryptography
collaborator's `setExpirationTime`/`setNotBefore` (the `jose` library is not
part of this repository).  Per §4.3 a relative duration string is an integer
with unit suffix s/m/h/d/w, converted to seconds. -/
def joseSecs (s : String) : Option Int :=
  parseTimeToSeconds s

/-- The symbolic signature of the idealized cryptography collaborator: an
HMAC signature records the algorithm, key and signed claims, so verification
succeeds exactly on that triple; `unsigned` stands for the absent signature
of an `alg: "none"` credential. -/
inductive JoseSig where
  | mac (alg : String) (key : String) (claims : Claims)
  | unsigned
  deriving DecidableEq, Repr

/-- A credential: header algorithm, claim set, signature.  Once built it is
never mutated. -/
structure Token where
  alg : String
  claims : Claims
  sig : JoseSig
  deriving DecidableEq, Repr

/-- Failure kinds of `signJWT` (§7): the insecure-algorithm rejection, the
key-material rejection raised by `validateKeyForAlgorithm` (thrown outside
the `try`), and failures wrapped by the `catch` as `Failed to sign JWT:`. -/
inductive SignErr where
  | insecureAlgorithm (msg : String)
  | invalidKey (msg : String)
  | signingFailure (msg : String)
  deriving DecidableEq, Repr

/-- The expiration timestamp chosen by `signJWT`: a truthy `expiresIn`
string is parsed by the collaborator (failure is a collaborator error), a
truthy number is an offset from `getCurrentTimestamp()`; otherwise the
`'1h'` secure default applies.  Expiration is always set. -/
def expResult (o : SignOptions) (now : Int) : Except String Int :=
  if truthyTime o.expiresIn then
    match o.expiresIn with
    | some (.str s) =>
      match joseSecs s with
      | some d => .ok (now + d)
      | none => .error "Invalid time period format"
    | some (.num n) => .ok (now + n)
    | none => .ok (now + 3600)
  else
    .ok (now + 3600)

/-- The optional `nbf` timestamp: analogous to `expResult`, but only set
for a truthy `notBefore`. -/
def nbfResult (o : SignOptions) (now : Int) : Except String (Option Int) :=
  if truthyTime o.notBefore then
    match o.notBefore with
    | some (.str s) =>
      match joseSecs s with
      | some d => .ok (some (now + d))
      | none => .error "Invalid time period format"
    | some (.num n) => .ok (some (now + n))
    | none => .ok none
  else
    .ok none

def applyNbf (c : Claims) : Option Int → Claims
  | some n => setClaim c "nbf" (.num n)
  | none => c

/-- `setAudience` / `setIssuer` / `setSubject` for each truthy option, in
source order. -/
def applyStrOpts (c : Claims) (o : SignOptions) : Claims :=
  let c1 := if truthyStr o.audience then setClaim c "aud" (.str (o.audience.getD "")) else c
  let c2 := if truthyStr o.issuer then setClaim c1 "iss" (.str (o.issuer.getD "")) else c1
  if truthyStr o.subject then setClaim c2 "sub" (.str (o.subject.getD "")) else c2

/-- The claim set assembled by `signJWT` via the collaborator's builder:
`{...payload}` then `setIssuedAt` (`iat := now`), then the expiration,
then `nbf`, `aud`, `iss`, `sub`, in source order. -/
def buildClaims (payload : Claims) (o : SignOptions) (now : Int) :
    Except String Claims :=
  match expResult o now with
  | .error m => .error m
  | .ok e =>
    match nbfResult o now with
    | .error m => .error m
    | .ok nbfo =>
      .ok (applyStrOpts
        (applyNbf (setClaim (setClaim payload "iat" (.num now)) "exp" (.num e)) nbfo) o)

/-- `signJWT` from `src/sign.ts`: algorithm allow-list check first, then key
validation, then claim assembly and signing inside the `try`.  Signing with
an encoded text secret only succeeds for the shared-secret (HS) family; the
collaborator rejects other families for such a key, which the `catch` wraps
as a signing failure. -/
def signJWT (payload : Claims) (o : SignOptions) (now : Int) :
    Except SignErr Token :=
  if ¬ isSecureAlgorithm o.alg then
    .error (.insecureAlgorithm
      ("Insecure algorithm: " ++ o.alg ++ ". Only secure algorithms are allowed."))
  else
    match validateKeyForAlgorithm o.secret o.alg with
    | .error m => .error (.invalidKey m)
    | .ok _ =>
      match buildClaims payload o now with
      | .error m => .error (.signingFailure ("Failed to sign JWT: " ++ m))
      | .ok c =>
        if strStartsWith o.alg "HS" then
          .ok ⟨o.alg, c, .mac o.alg o.secret c⟩
        else
          .error (.signingFailure
            "Failed to sign JWT: unsupported key type for this algorithm")

/-! ## `src/verify.ts` : credential verification -/

/-- `VerifyOptions` from `src/types.ts`. -/
structure VerifyOptions where
  secret : Option String := none
  alg : Option String := none
  jwksUri : Option String := none
  audience : Option String := none
  issuer : Option String := none
  clockTolerance : Option Int := none
  deriving Repr

/-- Failure kinds of the idealized cryptography collaborator's `jwtVerify`:
the `algorithms` option filter, the unsupported-algorithm rejection (the
unsigned algorithm is not a supported verification algorithm), cryptographic
signature mismatch, claim-value mismatch (`iss`/`aud`), temporal claim
check failure (`nbf`), and expiry. -/
inductive JoseErr where
  | algNotAllowed
  | notSupported
  | signatureVerificationFailed
  | claimInvalid (claim : String)
  | claimCheckFailed (claim : String)
  | expired
  deriving DecidableEq, Repr

/-- The collaborator's verification algorithms (the JWS allow-set; the
unsigned algorithm is never supported for verification). -/
def joseSupportedAlgs : List String :=
  secureAlgos ++ ["PS256", "PS384", "PS512"]

/-- Issuer claim check of the collaborator, driven by the `issuer` option:
`payload.iss` must equal the expected issuer; an absent claim fails. -/
def issuerOk (c : Claims) (iss : Option String) : Bool :=
  match iss with
  | none => true
  | some i =>
    match claimLookup c "iss" with
    | some (.str s) => s = i
    | _ => false

/-- Audience claim check: `payload.aud` is a string or an array of strings;
the expected audience must equal it or be one of its members. -/
def audienceOk (c : Claims) (aud : Option String) : Bool :=
  match aud with
  | none => true
  | some a =>
    match claimLookup c "aud" with
    | some (.str s) => s = a
    | some (.strArr xs) => xs.contains a
    | _ => false

/-- Not-before check: if an integer `nbf` claim is present it must satisfy
`nbf ≤ now + clockTolerance`. -/
def nbfOk (c : Claims) (tol now : Int) : Bool :=
  match claimLookup c "nbf" with
  | none => true
  | some (.num n) => decide (n ≤ now + tol)
  | some _ => false

/-- Expiry check: an integer `exp` claim fails when `exp ≤ now - tol`
(tolerant in the token's favor). -/
def expOk (c : Claims) (tol now : Int) : Bool :=
  match claimLookup c "exp" with
  | none => true
  | some (.num e) => decide (now - tol < e)
  | some _ => false

/-- Idealized `jose.jwtVerify`: the `algorithms` option filter, then the
supported-algorithm check, then cryptographic signature verification, then
claim validation (`iss`, `aud`, `nbf`, `exp`) at time `now` with the given
clock tolerance.  On success it returns the credential's claim set. -/
def jwtVerify (t : Token) (key : String) (algs : Option (List String))
    (aud iss : Option String) (tol now : Int) : Except JoseErr Claims :=
  if (match algs with | some l => ! l.contains t.alg | none => false) = true then
    .error .algNotAllowed
  else if ¬ joseSupportedAlgs.contains t.alg then
    .error .notSupported
  else if t.sig ≠ .mac t.alg key t.claims then
    .error .signatureVerificationFailed
  else if ¬ issuerOk t.claims iss then
    .error (.claimInvalid "iss")
  else if ¬ audienceOk t.claims aud then
    .error (.claimInvalid "aud")
  else if ¬ nbfOk t.claims tol now then
    .error (.claimCheckFailed "nbf")
  else
    match claimLookup t.claims "exp" with
    | some (.num e) =>
      if e ≤ now - tol then .error .expired else .ok t.claims
    | some _ => .error (.claimInvalid "exp")
    | none => .ok t.claims

/-- Error kinds surfaced by `verifyJWT` (`src/errors.ts`): these three
classes are the only ones its `catch` can throw. -/
inductive VerifyErr where
  | tokenExpired (msg : String)
  | invalidSignature (msg : String)
  | invalidToken (msg : String)
  deriving DecidableEq, Repr

/-- The message each collaborator failure carries (`error.message`), as the
`jose` versions providing this code's API (`jwtVerify`, `decodeJwt`,
`createRemoteJWKSet`) emit them.  In particular the expiry failure
(`JWTExpired`) says `"exp" claim timestamp check failed` — it does not
contain the word `expired`. -/
def joseErrMsg : JoseErr → String
  | .algNotAllowed => "\"alg\" (Algorithm) Header Parameter not allowed"
  | .notSupported => "Unsupported \"alg\" value"
  | .signatureVerificationFailed => "signature verification failed"
  | .claimInvalid c => "unexpected \"" ++ c ++ "\" claim value"
  | .claimCheckFailed c => "\"" ++ c ++ "\" claim timestamp check failed"
  | .expired => "\"exp\" claim timestamp check failed"

/-- The `catch` clause of `verifyJWT`, classifying the caught error by its
message exactly as the source does:
`error.message.includes('expired')` → `TokenExpiredError('Token has expired')`,
else `error.message.includes('signature')` →
`InvalidSignatureError('Invalid token signature')`, else
`InvalidTokenError('Invalid token: <message>')`. -/
def classifyCaught (msg : String) : VerifyErr :=
  if strIncludes msg "expired" then .tokenExpired "Token has expired"
  else if strIncludes msg "signature" then
    .invalidSignature "Invalid token signature"
  else .invalidToken ("Invalid token: " ++ msg)

/-- The catch applied to a collaborator failure: classification of its
message.  Note none of the collaborator's messages contains `expired` — in
particular the expiry failure is classified as `InvalidTokenError`, not
`TokenExpiredError`. -/
def classifyJoseErr (e : JoseErr) : VerifyErr :=
  classifyCaught (joseErrMsg e)

/-- The algorithms a remote key set can serve: the collaborator's JWKS key
resolution only admits asymmetric key types (RSA/EC/OKP), i.e. the RS/PS/ES
families and EdDSA; a shared-secret (HS) algorithm is rejected with
`JOSENotSupported` before any signature check. -/
def jwksSupportedAlg (a : String) : Bool :=
  strStartsWith a "RS" || strStartsWith a "PS" || strStartsWith a "ES" ||
    a = "EdDSA"

/-- Verification against a remote key set (`jose.createRemoteJWKSet` +
`jwtVerify`): the `algorithms` option filter runs first, then key
resolution — which fails for shared-secret algorithms — then the usual
verification with the key the key set resolves to for this URI (the
`jwksKey` oracle). -/
def jwtVerifyRemote (jwksKey : String → String) (uri : String) (t : Token)
    (algs : Option (List String)) (aud iss : Option String) (tol now : Int) :
    Except JoseErr Claims :=
  if (match algs with | some l => ! l.contains t.alg | none => false) = true then
    .error .algNotAllowed
  else if ¬ jwksSupportedAlg t.alg then
    .error .notSupported
  else
    jwtVerify t (jwksKey uri) algs aud iss tol now

/-- `verifyJWT` from `src/verify.ts`.  `jwksKey` is the network oracle: the
verification key the remote key set at a URI resolves to.  Note the branch
structure: a truthy `jwksUri` takes the remote path — regardless of whether
`secret` is also set; only when both are falsy does the function throw the
configuration message, which its own `catch` wraps as `InvalidTokenError`
(the message contains neither of the substrings the classifier looks
for). -/
def verifyJWT (jwksKey : String → String) (t : Token) (o : VerifyOptions)
    (now : Int) : Except VerifyErr Claims :=
  if truthyStr o.jwksUri then
    (jwtVerifyRemote jwksKey (o.jwksUri.getD "") t (o.alg.map (fun a => [a]))
      o.audience o.issuer (o.clockTolerance.getD 0) now).mapError classifyJoseErr
  else if truthyStr o.secret then
    (jwtVerify t (o.secret.getD "") (o.alg.map (fun a => [a]))
      o.audience o.issuer (o.clockTolerance.getD 0) now).mapError classifyJoseErr
  else
    .error (.invalidToken "Invalid token: Either secret or jwksUri must be provided")

/-! ## `src/keys.ts` : JWKS cache -/

/-- A cache entry: `{data, timestamp}` (timestamps in milliseconds, as the
source uses `Date.now()`).  The key-set document is abstracted as a string. -/
structure CacheEntry where
  data : String
  timestamp : Int
  deriving DecidableEq, Repr

abbrev JwksCache := List (String × CacheEntry)

/-- Lookup in the cache map. -/
def cacheLookup : JwksCache → String → Option CacheEntry
  | [], _ => none
  | p :: t, u => if p.1 = u then some p.2 else cacheLookup t u

/-- `jwksCache.set(uri, entry)`. -/
def setCacheEntry (cache : JwksCache) (uri : String) (e : CacheEntry) : JwksCache :=
  if (cacheLookup cache uri).isSome then
    cache.map (fun p => if p.1 = uri then (uri, e) else p)
  else
    cache ++ [(uri, e)]

/-- Outcome of one network fetch (the HTTP collaborator). -/
inductive FetchOutcome where
  | ok (data : String)
  | httpError (statusText : String)
  | networkError (msg : String)
  deriving DecidableEq, Repr

/-- Result of a `getJWKS` call: the returned/raised value, the cache
afterwards, and how many network fetches the call performed. -/
structure JwksResult where
  result : Except String String
  cache : JwksCache
  fetches : Nat
  deriving Repr

/-- `JWKS_CACHE_TTL = 300000` milliseconds (5 minutes). -/
def JWKS_CACHE_TTL : Int := 300000

/-- The fetch path of `getJWKS`: one network request; a non-ok response or
transport failure is wrapped (`Failed to fetch JWKS from <uri>: ...`) and
the cache is left untouched; a successful fetch is stored with the current
timestamp. -/
def getJWKSFetch (fetch : FetchOutcome) (cache : JwksCache) (jwksUri : String)
    (now : Int) : JwksResult :=
  match fetch with
  | .ok d => ⟨.ok d, setCacheEntry cache jwksUri ⟨d, now⟩, 1⟩
  | .httpError st =>
    ⟨.error ("Failed to fetch JWKS from " ++ jwksUri ++ ": Failed to fetch JWKS: " ++ st),
      cache, 1⟩
  | .networkError m =>
    ⟨.error ("Failed to fetch JWKS from " ++ jwksUri ++ ": " ++ m), cache, 1⟩

/-- `getJWKS` from `src/keys.ts`: serve the cached entry when it is younger
than the TTL (`now - cached.timestamp < JWKS_CACHE_TTL`, no network access),
otherwise fetch.  `fetch` is the oracle describing what one network request
would return now. -/
def getJWKS (fetch : FetchOutcome) (cache : JwksCache) (jwksUri : String)
    (now : Int) : JwksResult :=
  match cacheLookup cache jwksUri with
  | some cached =>
    if now - cached.timestamp < JWKS_CACHE_TTL then
      ⟨.ok cached.data, cache, 0⟩
    else
      getJWKSFetch fetch cache jwksUri now
  | none => getJWKSFetch fetch cache jwksUri now

/-! ## `src/security.ts` : security policy evaluation -/

structure SecurityPolicy where
  maxTokenAge : Option Int := none
  requiredClaims : Option (List String) := none
  forbiddenAlgorithms : Option (List String) := none
  minimumKeyLength : Option Int := none
  requireHttps : Option Bool := none
  allowedIssuers : Option (List String) := none
  allowedAudiences : Option (List String) := none
  clockToleranceMax : Option Int := none
  deriving Repr

/-- `DEFAULT_SECURITY_POLICY` (enterprise-grade): forbids `none` and
`HS256`. -/
def DEFAULT_SECURITY_POLICY : SecurityPolicy :=
  { maxTokenAge := some 3600
    requiredClaims := some ["exp", "iat", "sub"]
    forbiddenAlgorithms := some ["none", "HS256"]
    minimumKeyLength := some 256
    requireHttps := some true
    clockToleranceMax := some 300 }

/-- `DEVELOPMENT_SECURITY_POLICY` (relaxed). -/
def DEVELOPMENT_SECURITY_POLICY : SecurityPolicy :=
  { maxTokenAge := some 86400
    requiredClaims := some ["exp", "sub"]
    forbiddenAlgorithms := some ["none"]
    minimumKeyLength := some 128
    requireHttps := some false
    clockToleranceMax := some 600 }

/-- Rendering of a claim value inside a template string (JS coercion). -/
def jvShow : JValue → String
  | .str s => s
  | .num n => toString n
  | .bool b => if b then "true" else "false"
  | .strArr xs => String.intercalate "," xs
  | .null => "null"

def sensitiveFields : List String :=
  ["password", "secret", "key", "token", "credential", "ssn", "credit_card"]

def toLowerStr (s : String) : String :=
  String.mk (s.toList.map Char.toLower)

/-- `detectSuspiciousPatterns` from `src/security.ts`: the soft warnings
(long lifetime, missing `sub`/`iss`, sensitive claim names, very large
string claims). -/
def detectSuspiciousPatterns (payload : Claims) : List String :=
  let w1 :=
    match claimNum payload "exp", claimNum payload "iat" with
    | some e, some i =>
      if e ≠ 0 ∧ i ≠ 0 ∧ e - i > 31536000 then
        ["Token lifetime very long: " ++ toString ((e - i) / 86400) ++ " days"]
      else []
    | _, _ => []
  let w2 :=
    if ¬ claimTruthy payload "sub" then
      ["Missing subject (sub) claim - recommended for user identification"]
    else []
  let w3 :=
    if ¬ claimTruthy payload "iss" then
      ["Missing issuer (iss) claim - recommended for token verification"]
    else []
  let w4 := payload.flatMap (fun p =>
    (if sensitiveFields.any (fun f => strIncludes (toLowerStr p.1) f) then
      ["Potentially sensitive data in claim: " ++ p.1]
     else []) ++
    (match p.2 with
     | .str s =>
       if s.length > 1000 then
         ["Large claim detected: " ++ p.1 ++ " (" ++ toString s.length ++ " characters)"]
       else []
     | _ => []))
  w1 ++ w2 ++ w3 ++ w4

/-- `validateJWTSecurity` from `src/security.ts`.  Note the final step of
the source: `violations.push(...detectSuspiciousPatterns(payload))` — the
soft warnings are appended to the violations list it returns. -/
def validateJWTSecurity (payload : Claims) (algorithm : String)
    (policy : SecurityPolicy) (now : Int) : List String :=
  let v1 :=
    match policy.requiredClaims with
    | some rcs =>
      rcs.filterMap (fun claim =>
        if (claimLookup payload claim).isSome then none
        else some ("Missing required claim: " ++ claim))
    | none => []
  let v2 :=
    match policy.forbiddenAlgorithms with
    | some l =>
      if l.contains algorithm then ["Forbidden algorithm: " ++ algorithm] else []
    | none => []
  let v3 :=
    match policy.maxTokenAge, claimNum payload "iat" with
    | some m, some i =>
      if m ≠ 0 ∧ i ≠ 0 ∧ now - i > m then
        ["Token too old: " ++ toString (now - i) ++ "s (max: " ++ toString m ++ "s)"]
      else []
    | _, _ => []
  let v4 :=
    if ¬ claimTruthy payload "exp" then
      ["Token must have expiration time (exp claim)"]
    else
      match claimNum payload "exp", policy.maxTokenAge with
      | some e, some m =>
        if m ≠ 0 ∧ e - now > m then
          ["Token expiration too long: " ++ toString (e - now) ++ "s (max: " ++
            toString m ++ "s)"]
        else []
      | _, _ => []
  let v5 :=
    match policy.allowedIssuers with
    | some l =>
      if claimTruthy payload "iss" then
        match claimLookup payload "iss" with
        | some (.str s) =>
          if l.contains s then [] else ["Issuer not allowed: " ++ s]
        | some v => ["Issuer not allowed: " ++ jvShow v]
        | none => []
      else []
    | none => []
  let v6 :=
    match policy.allowedAudiences with
    | some l =>
      if claimTruthy payload "aud" then
        match claimLookup payload "aud" with
        | some (.str s) =>
          if l.contains s then [] else ["No allowed audience found in: " ++ s]
        | some (.strArr xs) =>
          if xs.any l.contains then []
          else ["No allowed audience found in: " ++ String.intercalate ", " xs]
        | some v => ["No allowed audience found in: " ++ jvShow v]
        | none => []
      else []
    | none => []
  v1 ++ v2 ++ v3 ++ v4 ++ v5 ++ v6 ++ detectSuspiciousPatterns payload

/-- The assessment report: `{score, violations, warnings, recommendations}`. -/
structure Assessment where
  score : Int
  violations : List String
  warnings : List String
  recommendations : List String
  deriving DecidableEq, Repr

/-- `generateSecurityAssessment` from `src/security.ts`: violations from
`validateJWTSecurity`, warnings from `detectSuspiciousPatterns`, score
`100 - 15·|violations| - 5·|warnings|` floored at 0, plus deterministic
recommendations. -/
def generateSecurityAssessment (payload : Claims) (algorithm : String)
    (policy : SecurityPolicy) (now : Int) : Assessment :=
  let violations := validateJWTSecurity payload algorithm policy now
  let warnings := detectSuspiciousPatterns payload
  let recommendations :=
    (if algorithm = "HS256" then
      ["Consider using RS256 for better security in distributed systems"]
     else []) ++
    (if ¬ claimTruthy payload "iss" then
      ["Add issuer (iss) claim to identify token source"]
     else []) ++
    (if ¬ claimTruthy payload "aud" then
      ["Add audience (aud) claim to specify intended recipients"]
     else []) ++
    (match claimNum payload "exp", claimNum payload "iat" with
     | some e, some i =>
       if e ≠ 0 ∧ i ≠ 0 ∧ e - i > 3600 then
         ["Consider shorter token lifetime for better security"]
       else []
     | _, _ => [])
  let score : Int :=
    max 0 (100 - 15 * (violations.length : Int) - 5 * (warnings.length : Int))
  ⟨score, violations, warnings, recommendations⟩

/-! ## `src/enterprise.ts` : enterprise trust profiles -/

/-- The minimal provider configuration (each provider reads the fields it
needs). -/
structure EnterpriseConfig where
  domain : Option String := none
  audience : Option String := none
  region : Option String := none
  userPoolId : Option String := none
  clientId : Option String := none
  projectId : Option String := none
  tenantId : Option String := none
  issuer : Option String := none
  deriving Repr

structure EnterpriseProvider where
  name : String
  jwksUri : String
  issuer : String
  audience : Option String
  algorithms : List String
  description : String
  deriving Repr

/-- JS template-string coercion of a possibly-undefined field. -/
def optStr (o : Option String) : String :=
  o.getD "undefined"

/-- `ENTERPRISE_PROVIDERS` from `src/enterprise.ts`: deterministic
construction of the trust profile from the provider kind and config (pure
string composition).  Unknown kinds have no entry. -/
def enterpriseProviderFor (provider : String) (cfg : EnterpriseConfig) :
    Option EnterpriseProvider :=
  match provider with
  | "auth0" =>
    some ⟨"Auth0",
      "https://" ++ optStr cfg.domain ++ "/.well-known/jwks.json",
      "https://" ++ optStr cfg.domain ++ "/",
      cfg.audience, ["RS256"], "Auth0 Identity Platform"⟩
  | "cognito" =>
    some ⟨"AWS Cognito",
      "https://cognito-idp." ++ optStr cfg.region ++ ".amazonaws.com/" ++
        optStr cfg.userPoolId ++ "/.well-known/jwks.json",
      "https://cognito-idp." ++ optStr cfg.region ++ ".amazonaws.com/" ++
        optStr cfg.userPoolId,
      cfg.clientId, ["RS256"], "AWS Cognito User Pool"⟩
  | "okta" =>
    some ⟨"Okta",
      "https://" ++ optStr cfg.domain ++ "/oauth2/default/.well-known/jwks.json",
      "https://" ++ optStr cfg.domain ++ "/oauth2/default",
      cfg.audience, ["RS256"], "Okta Identity Cloud"⟩
  | "firebase" =>
    some ⟨"Firebase",
      "https://www.googleapis.com/robot/v1/metadata/x509/securetoken@system.gserviceaccount.com",
      "https://securetoken.google.com/" ++ optStr cfg.projectId,
      cfg.projectId, ["RS256"], "Firebase Authentication"⟩
  | "azure" =>
    some ⟨"Azure AD",
      "https://login.microsoftonline.com/" ++ optStr cfg.tenantId ++ "/discovery/v2.0/keys",
      "https://login.microsoftonline.com/" ++ optStr cfg.tenantId ++ "/v2.0",
      cfg.clientId, ["RS256"], "Azure AD"⟩
  | "oidc" =>
    some ⟨"OpenID Connect",
      optStr cfg.issuer ++ "/.well-known/jwks.json",
      optStr cfg.issuer,
      cfg.audience, ["RS256", "ES256"], "Generic OpenID Connect Provider"⟩
  | _ => none

/-- `validateEnterpriseToken` from `src/enterprise.ts`: provider-specific
post-verification claim checks.  `auth0` has an empty conditional body (no
effective check); `okta`/`oidc` have no case.  Nested object claim values
(Firebase's `firebase.identities`) are outside the modelled value domain, so
a truthy `firebase` claim fails the identity check here. -/
def validateEnterpriseToken (payload : Claims) (provider : String)
    (cfg : EnterpriseConfig) : Except String Unit :=
  match provider with
  | "cognito" =>
    if ¬ claimTruthy payload "token_use" then
      .error "AWS Cognito token missing token_use claim"
    else
      match claimLookup payload "token_use" with
      | some v =>
        if v ≠ .str "id" ∧ v ≠ .str "access" then
          .error ("Invalid AWS Cognito token_use: " ++ jvShow v)
        else .ok ()
      | none => .error "AWS Cognito token missing token_use claim"
  | "firebase" =>
    if ¬ claimTruthy payload "auth_time" then
      .error "Firebase token missing auth_time claim"
    else if claimTruthy payload "firebase" then
      .error "Firebase token missing identity information"
    else .ok ()
  | "azure" =>
    if ¬ claimTruthy payload "tid" then
      .error "Azure AD token missing tenant ID (tid)"
    else
      match cfg.tenantId with
      | some tid =>
        if tid ≠ "" ∧ claimLookup payload "tid" ≠ some (.str tid) then
          .error ("Token tenant ID mismatch. Expected: " ++ tid ++ ", Got: " ++
            jvShow ((claimLookup payload "tid").getD .null))
        else .ok ()
      | none => .ok ()
  | _ => .ok ()

/-- The message carried by a `verifyJWT` failure (`error.message`). -/
def verifyErrMsg : VerifyErr → String
  | .tokenExpired m => m
  | .invalidSignature m => m
  | .invalidToken m => m

/-- `verifyEnterpriseJWT` from `src/enterprise.ts`: unknown provider is
rejected up front; otherwise the constructed profile supplies
`jwksUri`/`issuer`/`audience` to `verifyJWT` with caller overrides taking
precedence (the final object spread), then the provider-specific checks run
on the verified claims.  Every failure inside the `try` — verification or
post-verification — is rethrown as
`InvalidTokenError('Enterprise verification failed for <name>: ...')`. -/
def verifyEnterpriseJWT (jwksKey : String → String) (t : Token)
    (provider : String) (cfg : EnterpriseConfig) (overrides : VerifyOptions)
    (now : Int) : Except VerifyErr Claims :=
  match enterpriseProviderFor provider cfg with
  | none => .error (.invalidToken ("Unsupported enterprise provider: " ++ provider))
  | some pc =>
    let vo : VerifyOptions :=
      { jwksUri := overrides.jwksUri.orElse (fun _ => some pc.jwksUri)
        issuer := overrides.issuer.orElse (fun _ => some pc.issuer)
        audience := overrides.audience.orElse (fun _ => pc.audience)
        secret := overrides.secret
        alg := overrides.alg
        clockTolerance := overrides.clockTolerance }
    match verifyJWT jwksKey t vo now with
    | .ok payload =>
      match validateEnterpriseToken payload provider cfg with
      | .ok _ => .ok payload
      | .error m =>
        .error (.invalidToken
          ("Enterprise verification failed for " ++ pc.name ++ ": " ++ m))
    | .error e =>
      .error (.invalidToken
        ("Enterprise verification failed for " ++ pc.name ++ ": " ++ verifyErrMsg e))

/-! ## Concrete instances used by witnesses and counterexamples -/

/-- A 32-character shared secret. -/
def exKey : String := "aaaaaaaaaaaaaaaaaaaaaaaaaaaaaaaa"

/-- A caller-supplied claim set. -/
def exClaims : Claims := [("role", .str "admin")]

/-- Sign options: HS256 with issuer, audience and subject. -/
def exSignOpts : SignOptions :=
  { secret := exKey, alg := "HS256"
    issuer := some "https://auth.example.com"
    audience := some "https://api.example.com"
    subject := some "user1" }

def exNow : Int := 1000000

/-- The claim set `signJWT exClaims exSignOpts exNow` assembles. -/
def exBuilt : Claims :=
  [("role", .str "admin"), ("iat", .num 1000000), ("exp", .num 1003600),
   ("aud", .str "https://api.example.com"),
   ("iss", .str "https://auth.example.com"), ("sub", .str "user1")]

/-- The token `signJWT exClaims exSignOpts exNow` produces. -/
def exToken : Token :=
  ⟨"HS256", exBuilt, .mac "HS256" exKey exBuilt⟩

/-- Matching verify options (same key and algorithm, same issuer and
audience). -/
def exVerifyOpts : VerifyOptions :=
  { secret := some exKey, alg := some "HS256"
    issuer := some "https://auth.example.com"
    audience := some "https://api.example.com" }

/-- An unsigned (`alg: "none"`) credential. -/
def noneToken : Token := ⟨"none", [("sub", .str "x")], .unsigned⟩

/-- Claims of a provider-issued RS256 credential. -/
def rsClaims : Claims :=
  [("sub", .str "svc"), ("iat", .num 1000000), ("exp", .num 1003600)]

/-- A provider-issued RS256 credential, verifiable through a remote key
set whose key for the provider's URI is `"rsa-key-1"`. -/
def rsToken : Token := ⟨"RS256", rsClaims, .mac "RS256" "rsa-key-1" rsClaims⟩

/-- The claim set of a token signed with `expiresIn = -1` at time 1000000:
`exp = iat - 1`. -/
def expiredClaims : Claims :=
  [("role", .str "admin"), ("iat", .num 1000000), ("exp", .num 999999)]

/-- The token `signJWT exClaims {secret, HS256, expiresIn := -1} 1000000`
produces. -/
def expiredToken : Token :=
  ⟨"HS256", expiredClaims, .mac "HS256" exKey expiredClaims⟩

/-- A 16-character secret of two-byte characters: 32 UTF-8 bytes long but
only 16 characters long. -/
def wideKey : String := String.mk (List.replicate 16 'é')

/-- The shared-secret members of the allow-list (the `HS` family). -/
def hsAlgList : List String := ["HS256", "HS384", "HS512"]

/-! ## Helper lemmas -/

theorem claimLookup_map_set (c : Claims) (k : String) (v : JValue) :
    claimLookup (c.map (fun p => if p.1 = k then (k, v) else p)) k =
      if (claimLookup c k).isSome then some v else none := by
  induction c with
  | nil => simp [claimLookup]
  | cons p t ih =>
    by_cases h : p.1 = k
    · simp [claimLookup, h]
    · simp [claimLookup, h, ih]

theorem claimLookup_map_set_ne (c : Claims) (k k' : String) (v : JValue)
    (h : k' ≠ k) :
    claimLookup (c.map (fun p => if p.1 = k then (k, v) else p)) k' =
      claimLookup c k' := by
  induction c with
  | nil => simp [claimLookup]
  | cons p t ih =>
    by_cases hp : p.1 = k
    · have hk : ¬ (k = k') := fun he => h he.symm
      simp [claimLookup, hp, hk, ih]
    · by_cases hp' : p.1 = k' <;> simp [claimLookup, hp, hp', h, ih]

theorem claimLookup_append_self (c : Claims) (k : String) (v : JValue)
    (hs : claimLookup c k = none) :
    claimLookup (c ++ [(k, v)]) k = some v := by
  induction c with
  | nil => simp [claimLookup]
  | cons p t ih =>
    by_cases hp : p.1 = k
    · simp [claimLookup, hp] at hs
    · simp [claimLookup, hp] at hs ⊢
      exact ih hs

theorem claimLookup_append_ne (c : Claims) (k k' : String) (v : JValue)
    (h : k' ≠ k) :
    claimLookup (c ++ [(k, v)]) k' = claimLookup c k' := by
  induction c with
  | nil =>
    have hk : ¬ (k = k') := fun he => h he.symm
    simp [claimLookup, hk]
  | cons p t ih =>
    by_cases hp : p.1 = k' <;> simp [claimLookup, hp, ih]

theorem claimLookup_setClaim_self (c : Claims) (k : String) (v : JValue) :
    claimLookup (setClaim c k v) k = some v := by
  unfold setClaim
  split
  · next hs => rw [claimLookup_map_set]; simp [hs]
  · next hs =>
    simp only [Option.not_isSome_iff_eq_none] at hs
    exact claimLookup_append_self c k v hs

theorem claimLookup_setClaim_ne (c : Claims) (k k' : String) (v : JValue)
    (h : k' ≠ k) :
    claimLookup (setClaim c k v) k' = claimLookup c k' := by
  unfold setClaim
  split
  · exact claimLookup_map_set_ne c k k' v h
  · exact claimLookup_append_ne c k k' v h

theorem claimTruthy_of_setClaim_ne (c : Claims) (k k' : String) (v : JValue)
    (h : k' ≠ k) :
    claimTruthy (setClaim c k v) k' = claimTruthy c k' := by
  unfold claimTruthy
  rw [claimLookup_setClaim_ne c k k' v h]

/-- The secure allow-list is contained in the collaborator's supported
verification algorithms. -/
theorem secure_mem_supported (a : String) (h : isSecureAlgorithm a = true) :
    joseSupportedAlgs.contains a = true := by
  simp only [isSecureAlgorithm, secureAlgos, List.contains, List.elem_iff,
    List.mem_cons] at h
  simp only [joseSupportedAlgs, secureAlgos, List.contains, List.elem_iff,
    List.mem_append, List.mem_cons]
  tauto

theorem applyNbf_lookup (c : Claims) (nbfo : Option Int) (k : String)
    (h : k ≠ "nbf") :
    claimLookup (applyNbf c nbfo) k = claimLookup c k := by
  cases nbfo with
  | none => rfl
  | some n => exact claimLookup_setClaim_ne _ _ _ _ h

theorem applyStrOpts_lookup (c : Claims) (o : SignOptions) (k : String)
    (h1 : k ≠ "aud") (h2 : k ≠ "iss") (h3 : k ≠ "sub") :
    claimLookup (applyStrOpts c o) k = claimLookup c k := by
  unfold applyStrOpts
  by_cases ha : truthyStr o.audience = true <;>
    by_cases hi : truthyStr o.issuer = true <;>
      by_cases hs : truthyStr o.subject = true <;>
        simp [ha, hi, hs, claimLookup_setClaim_ne _ _ _ _ h1,
          claimLookup_setClaim_ne _ _ _ _ h2,
          claimLookup_setClaim_ne _ _ _ _ h3]

theorem buildClaims_ok_elim (payload : Claims) (o : SignOptions) (now : Int)
    (c : Claims) (h : buildClaims payload o now = .ok c) :
    ∃ e nbfo, expResult o now = .ok e ∧ nbfResult o now = .ok nbfo ∧
      c = applyStrOpts
        (applyNbf (setClaim (setClaim payload "iat" (.num now)) "exp" (.num e)) nbfo)
        o := by
  unfold buildClaims at h
  split at h
  · simp at h
  · next e he =>
    split at h
    · simp at h
    · next nbfo hn =>
      refine ⟨e, nbfo, he, hn, ?_⟩
      simpa using h.symm

theorem buildClaims_lookup_iat (payload : Claims) (o : SignOptions) (now : Int)
    (c : Claims) (h : buildClaims payload o now = .ok c) :
    claimLookup c "iat" = some (.num now) := by
  obtain ⟨e, nbfo, he, hn, rfl⟩ := buildClaims_ok_elim _ _ _ _ h
  rw [applyStrOpts_lookup _ _ _ (by decide) (by decide) (by decide),
    applyNbf_lookup _ _ _ (by decide),
    claimLookup_setClaim_ne _ _ _ _ (by decide),
    claimLookup_setClaim_self]

theorem buildClaims_lookup_exp (payload : Claims) (o : SignOptions) (now : Int)
    (c : Claims) (h : buildClaims payload o now = .ok c) :
    ∃ e, expResult o now = .ok e ∧ claimLookup c "exp" = some (.num e) := by
  obtain ⟨e, nbfo, he, hn, rfl⟩ := buildClaims_ok_elim _ _ _ _ h
  refine ⟨e, he, ?_⟩
  rw [applyStrOpts_lookup _ _ _ (by decide) (by decide) (by decide),
    applyNbf_lookup _ _ _ (by decide),
    claimLookup_setClaim_self]

theorem buildClaims_lookup_nbf_none (payload : Claims) (o : SignOptions)
    (now : Int) (c : Claims) (hnb : truthyTime o.notBefore = false)
    (hp : claimLookup payload "nbf" = none)
    (h : buildClaims payload o now = .ok c) :
    claimLookup c "nbf" = none := by
  obtain ⟨e, nbfo, he, hn, rfl⟩ := buildClaims_ok_elim _ _ _ _ h
  have hno : nbfo = none := by
    unfold nbfResult at hn
    rw [hnb] at hn
    simp at hn
    exact hn.symm
  subst hno
  rw [applyStrOpts_lookup _ _ _ (by decide) (by decide) (by decide)]
  show claimLookup (setClaim (setClaim payload "iat" (.num now)) "exp" (.num e)) "nbf" = none
  rw [claimLookup_setClaim_ne _ _ _ _ (by decide),
    claimLookup_setClaim_ne _ _ _ _ (by decide)]
  exact hp

theorem expResult_default (o : SignOptions) (now : Int)
    (h : truthyTime o.expiresIn = false) :
    expResult o now = .ok (now + 3600) := by
  unfold expResult
  rw [h]
  simp

theorem signJWT_ok_elim (payload : Claims) (o : SignOptions) (now : Int)
    (t : Token) (h : signJWT payload o now = .ok t) :
    isSecureAlgorithm o.alg = true ∧
    validateKeyForAlgorithm o.secret o.alg = .ok () ∧
    strStartsWith o.alg "HS" = true ∧
    buildClaims payload o now = .ok t.claims ∧
    t.alg = o.alg ∧ t.sig = .mac o.alg o.secret t.claims := by
  unfold signJWT at h
  split at h
  · simp at h
  · next hsec =>
    split at h
    · simp at h
    · next u hv =>
      split at h
      · simp at h
      · next cl hb =>
        split at h
        · next hhs =>
          obtain rfl : (⟨o.alg, cl, .mac o.alg o.secret cl⟩ : Token) = t := by
            simpa using h
          refine ⟨by simpa using hsec, by cases u; exact hv, hhs, hb, rfl, rfl⟩
        · simp at h

/-- A key accepted by `validateKeyForAlgorithm` is nonempty. -/
theorem validateKey_ok_ne_empty (key a : String)
    (h : validateKeyForAlgorithm key a = .ok ()) : key ≠ "" := by
  intro he
  rw [he] at h
  simp [validateKeyForAlgorithm, throw, throwThe, MonadExceptOf.throw,
    Bind.bind, Except.bind] at h

/-- Success conditions of the collaborator's verification. -/
theorem jwtVerify_ok (t : Token) (key : String) (algs : Option (List String))
    (aud iss : Option String) (tol now : Int)
    (halg : (match algs with
      | some l => ! l.contains t.alg
      | none => false) = false)
    (hsup : joseSupportedAlgs.contains t.alg = true)
    (hsig : t.sig = .mac t.alg key t.claims)
    (hiss : issuerOk t.claims iss = true)
    (haud : audienceOk t.claims aud = true)
    (hnbf : nbfOk t.claims tol now = true)
    (hexp : expOk t.claims tol now = true) :
    jwtVerify t key algs aud iss tol now = .ok t.claims := by
  have c1 : ¬ (¬ joseSupportedAlgs.contains t.alg = true) := fun hc => hc hsup
  have c2 : ¬ (t.sig ≠ JoseSig.mac t.alg key t.claims) := by
    simp only [ne_eq, not_not]
    exact hsig
  have c3 : ¬ (¬ issuerOk t.claims iss = true) := fun hc => hc hiss
  have c4 : ¬ (¬ audienceOk t.claims aud = true) := fun hc => hc haud
  have c5 : ¬ (¬ nbfOk t.claims tol now = true) := fun hc => hc hnbf
  unfold jwtVerify
  rw [halg, if_neg (by simp), if_neg c1, if_neg c2, if_neg c3, if_neg c4,
    if_neg c5]
  cases hE : claimLookup t.claims "exp" with
  | none => simp
  | some v =>
    cases v with
    | num e =>
      unfold expOk at hexp
      rw [hE] at hexp
      simp only [decide_eq_true_eq] at hexp
      simp only []
      rw [if_neg (by omega)]
    | str s => unfold expOk at hexp; rw [hE] at hexp; simp at hexp
    | bool b => unfold expOk at hexp; rw [hE] at hexp; simp at hexp
    | strArr xs => unfold expOk at hexp; rw [hE] at hexp; simp at hexp
    | null => unfold expOk at hexp; rw [hE] at hexp; simp at hexp

theorem cacheLookup_set_self (cache : JwksCache) (uri : String)
    (e : CacheEntry) :
    cacheLookup (setCacheEntry cache uri e) uri = some e := by
  unfold setCacheEntry
  split
  · next hs =>
    induction cache with
    | nil => simp [cacheLookup] at hs
    | cons p t ih =>
      by_cases h : p.1 = uri
      · simp [cacheLookup, h]
      · simp only [cacheLookup, if_neg h, Option.isSome] at hs
        simp only [List.map_cons, if_neg h, cacheLookup, if_neg h]
        exact ih hs
  · induction cache with
    | nil => simp [cacheLookup]
    | cons p t ih =>
      next hs =>
      by_cases h : p.1 = uri
      · simp [cacheLookup, h] at hs
      · simp only [cacheLookup, if_neg h, Option.isSome] at hs
        simp only [List.cons_append, cacheLookup, if_neg h]
        exact ih hs

/-- A successful `jwtVerify` returns exactly the token's claim set. -/
theorem jwtVerify_ok_claims (t : Token) (key : String)
    (algs : Option (List String)) (aud iss : Option String) (tol now : Int)
    (c : Claims) (h : jwtVerify t key algs aud iss tol now = .ok c) :
    c = t.claims := by
  unfold jwtVerify at h
  split at h
  · simp at h
  · split at h
    · simp at h
    · split at h
      · simp at h
      · split at h
        · simp at h
        · split at h
          · simp at h
          · split at h
            · simp at h
            · split at h
              · split at h
                · simp at h
                · exact (Except.ok.inj h).symm
              · simp at h
              · exact (Except.ok.inj h).symm

/-- A successful remote-key-set verification returns exactly the token's
claim set. -/
theorem jwtVerifyRemote_ok_claims (jwksKey : String → String) (uri : String)
    (t : Token) (algs : Option (List String)) (aud iss : Option String)
    (tol now : Int) (c : Claims)
    (h : jwtVerifyRemote jwksKey uri t algs aud iss tol now = .ok c) :
    c = t.claims := by
  unfold jwtVerifyRemote at h
  split at h
  · simp at h
  · split at h
    · simp at h
    · exact jwtVerify_ok_claims _ _ _ _ _ _ _ _ h

/-- A successful `verifyJWT` returns exactly the token's claim set. -/
theorem verifyJWT_ok_claims (jwksKey : String → String) (t : Token)
    (o : VerifyOptions) (now : Int) (c : Claims)
    (h : verifyJWT jwksKey t o now = .ok c) : c = t.claims := by
  unfold verifyJWT at h
  split at h
  · cases hv : jwtVerifyRemote jwksKey (o.jwksUri.getD "") t
        (o.alg.map fun a => [a]) o.audience o.issuer
        (o.clockTolerance.getD 0) now with
    | error e => rw [hv] at h; simp [Except.mapError] at h
    | ok c' =>
      rw [hv] at h
      simp only [Except.mapError] at h
      exact (Except.ok.inj h) ▸ jwtVerifyRemote_ok_claims _ _ _ _ _ _ _ _ _ hv
  · split at h
    · cases hv : jwtVerify t (o.secret.getD "") (o.alg.map fun a => [a])
          o.audience o.issuer (o.clockTolerance.getD 0) now with
      | error e => rw [hv] at h; simp [Except.mapError] at h
      | ok c' =>
        rw [hv] at h
        simp only [Except.mapError] at h
        exact (Except.ok.inj h) ▸ jwtVerify_ok_claims _ _ _ _ _ _ _ _ hv
    · simp at h

/-! ## Claim theorems -/

/-- **C1**: for every claim set `C` and valid sign options `O`, verifying
the token produced by `signJWT(C, O)` with options `O'` that use the same
key and algorithm and impose no stricter issuer/audience (their
issuer/audience options, when set, match the signed claims — captured by
the `issuerOk`/`audienceOk` conditions the verifier itself applies, and the
temporal claims are inside their window at verification time) succeeds, and
the returned payload equals `C` plus the generated claims `{iat, exp}` and,
when the corresponding options were set, `{nbf, iss, aud, sub}` — the claim
set built by `buildClaims`. -/
theorem verify_sign_roundtrip
    (jwksOracle : String → String) (C : Claims) (o : SignOptions)
    (o' : VerifyOptions) (now : Int) (t : Token)
    (hsign : signJWT C o now = .ok t)
    (hjwks : o'.jwksUri = none)
    (hsec : o'.secret = some o.secret)
    (halg : o'.alg = none ∨ o'.alg = some o.alg)
    (hiss : issuerOk t.claims o'.issuer = true)
    (haud : audienceOk t.claims o'.audience = true)
    (hnbf : nbfOk t.claims (o'.clockTolerance.getD 0) now = true)
    (hexp : expOk t.claims (o'.clockTolerance.getD 0) now = true) :
    verifyJWT jwksOracle t o' now = .ok t.claims ∧
    buildClaims C o now = .ok t.claims := by
  obtain ⟨hsa, hvk, hhs, hbc, htalg, htsig⟩ := signJWT_ok_elim _ _ _ _ hsign
  have hne : o.secret ≠ "" := validateKey_ok_ne_empty _ _ hvk
  refine ⟨?_, hbc⟩
  have hsup' : joseSupportedAlgs.contains t.alg = true := by
    rw [htalg]
    exact secure_mem_supported _ hsa
  have hsig' : t.sig = .mac t.alg o.secret t.claims := by
    rw [htalg]
    exact htsig
  have halg' : (match o'.alg.map (fun a => [a]) with
      | some l => ! l.contains t.alg
      | none => false) = false := by
    rcases halg with h | h <;> rw [h]
    · rfl
    · simp [htalg, List.contains_cons]
  have hJ := jwtVerify_ok t o.secret (o'.alg.map (fun a => [a])) o'.audience
    o'.issuer (o'.clockTolerance.getD 0) now halg' hsup' hsig' hiss haud hnbf hexp
  unfold verifyJWT
  rw [hjwks, hsec]
  rw [if_neg (by simp [truthyStr]), if_pos (by simp [truthyStr, hne])]
  simp only [Option.getD_some]
  rw [hJ]
  rfl

/-- Witness for C1: a concrete HS256 signing round-trips through
verification with matching options. -/
theorem verify_sign_roundtrip_witness :
    verifyJWT (fun _ => "") exToken exVerifyOpts exNow = .ok exToken.claims ∧
    buildClaims exClaims exSignOpts exNow = .ok exToken.claims :=
  verify_sign_roundtrip (fun _ => "") exClaims exSignOpts exVerifyOpts exNow
    exToken (by rfl) rfl rfl (Or.inr rfl) (by decide) (by decide)
    (by decide) (by decide)

/-- Counterexample for C2: `verifyJWT` called on an unsigned (`alg: "none"`)
credential — even with the `alg` option set to `"none"` — does not fail with
an insecure-algorithm kind; the code contains no algorithm allow-list check
on the verify path (`VerifyErr` has no such kind at all), and the failure
surfaces as `InvalidTokenError` after the collaborator rejects the
unsupported algorithm. -/
theorem verify_none_alg_counterexample :
    verifyJWT (fun _ => "") noneToken
      { secret := some exKey, alg := some "none" } 0 =
    .error (.invalidToken ("Invalid token: Unsupported \"alg\" value")) := by
  rfl

/-- **C2 (amended)**: `signJWT` rejects every algorithm outside the
allow-list with the `InsecureAlgorithm` kind, independently of the key
(no key material is touched); `verifyJWT`, by contrast, performs no
allow-list check of its own — an unsigned (`alg: "none"`) credential fails
inside signature verification and surfaces as `InvalidTokenError`, never
as an insecure-algorithm kind. -/
theorem insecure_algorithm_amended :
    (∀ (payload : Claims) (o : SignOptions) (now : Int),
      isSecureAlgorithm o.alg = false →
      signJWT payload o now = .error (.insecureAlgorithm
        ("Insecure algorithm: " ++ o.alg ++
          ". Only secure algorithms are allowed."))) ∧
    (∀ (jwksKey : String → String) (t : Token) (o : VerifyOptions)
        (now : Int), t.alg = "none" →
      ∃ m, verifyJWT jwksKey t o now = .error (.invalidToken m)) := by
  constructor
  · intro payload o now h
    unfold signJWT
    rw [if_pos (by simp [h])]
  · intro jwksKey t o now h
    have hnone : ∀ (key : String) (algs : Option (List String))
        (aud iss : Option String) (tol now' : Int),
        jwtVerify t key algs aud iss tol now' = .error .algNotAllowed ∨
        jwtVerify t key algs aud iss tol now' = .error .notSupported := by
      intro key algs aud iss tol now'
      unfold jwtVerify
      by_cases hc : (match algs with
          | some l => ! l.contains t.alg
          | none => false) = true
      · left
        rw [if_pos hc]
      · right
        rw [if_neg hc, if_pos (by rw [h]; decide)]
    have hnoneR : ∀ (uri : String) (algs : Option (List String))
        (aud iss : Option String) (tol now' : Int),
        jwtVerifyRemote jwksKey uri t algs aud iss tol now' =
          .error .algNotAllowed ∨
        jwtVerifyRemote jwksKey uri t algs aud iss tol now' =
          .error .notSupported := by
      intro uri algs aud iss tol now'
      unfold jwtVerifyRemote
      by_cases hc : (match algs with
          | some l => ! l.contains t.alg
          | none => false) = true
      · left
        rw [if_pos hc]
      · right
        rw [if_neg hc, if_pos (by rw [h]; decide)]
    unfold verifyJWT
    by_cases hj : truthyStr o.jwksUri = true
    · rw [if_pos hj]
      rcases hnoneR (o.jwksUri.getD "") (o.alg.map (fun a => [a]))
          o.audience o.issuer (o.clockTolerance.getD 0) now with hv | hv <;>
        rw [hv] <;> exact ⟨_, rfl⟩
    · rw [if_neg hj]
      by_cases hs : truthyStr o.secret = true
      · rw [if_pos hs]
        rcases hnone (o.secret.getD "") (o.alg.map (fun a => [a]))
            o.audience o.issuer (o.clockTolerance.getD 0) now with hv | hv <;>
          rw [hv] <;> exact ⟨_, rfl⟩
      · rw [if_neg hs]
        exact ⟨_, rfl⟩

/-- Witness for the amended C2 at concrete inputs. -/
theorem insecure_algorithm_amended_witness :
    signJWT exClaims { secret := exKey, alg := "none" } 0 =
      .error (.insecureAlgorithm
        ("Insecure algorithm: " ++ "none" ++
          ". Only secure algorithms are allowed.")) ∧
    (∃ m, verifyJWT (fun _ => "") noneToken { secret := some exKey } 0 =
      .error (.invalidToken m)) :=
  ⟨insecure_algorithm_amended.1 exClaims { secret := exKey, alg := "none" } 0
      (by decide),
   insecure_algorithm_amended.2 (fun _ => "") noneToken
      { secret := some exKey } 0 rfl⟩

/-- Counterexample for C3: supplying **both** `secret` and `jwksUri` does
not fail with a configuration error — verification proceeds on the remote
key-set path and can even succeed (here for a provider-issued RS256
credential, since the remote key-set path serves only asymmetric
algorithms). -/
theorem both_key_sources_counterexample :
    verifyJWT (fun _ => "rsa-key-1") rsToken
      { secret := some exKey,
        jwksUri := some "https://jwks.example.com/jwks.json",
        alg := some "RS256" } 1000000 = .ok rsClaims := by
  rfl

/-- **C3 (amended)**: `verifyJWT` does not require exactly one of
`secret`/`jwksUri`.  A truthy `jwksUri` takes precedence — verification
proceeds on the remote key-set path even when `secret` is also supplied;
only when both are falsy does the call fail, and that configuration failure
is surfaced as `InvalidTokenError` with message
`Invalid token: Either secret or jwksUri must be provided` (the code has no
distinct configuration-error kind). -/
theorem key_source_selection_amended :
    (∀ (jwksKey : String → String) (t : Token) (o : VerifyOptions)
        (now : Int), truthyStr o.jwksUri = true →
      verifyJWT jwksKey t o now =
        (jwtVerifyRemote jwksKey (o.jwksUri.getD "") t
          (o.alg.map (fun a => [a])) o.audience o.issuer
          (o.clockTolerance.getD 0) now).mapError classifyJoseErr) ∧
    (∀ (jwksKey : String → String) (t : Token) (o : VerifyOptions)
        (now : Int),
      truthyStr o.jwksUri = false → truthyStr o.secret = false →
      verifyJWT jwksKey t o now =
        .error (.invalidToken
          "Invalid token: Either secret or jwksUri must be provided")) := by
  constructor
  · intro jwksKey t o now h
    unfold verifyJWT
    rw [if_pos h]
  · intro jwksKey t o now h1 h2
    unfold verifyJWT
    rw [if_neg (by simp [h1]), if_neg (by simp [h2])]

/-- Witness for the amended C3 at concrete inputs. -/
theorem key_source_selection_amended_witness :
    verifyJWT (fun _ => "rsa-key-1") rsToken
      { secret := some exKey, jwksUri := some "https://jwks.example.com/jwks.json" }
      exNow =
      (jwtVerifyRemote (fun _ => "rsa-key-1")
        "https://jwks.example.com/jwks.json" rsToken none none none 0
        exNow).mapError classifyJoseErr ∧
    verifyJWT (fun _ => "rsa-key-1") rsToken {} exNow =
      .error (.invalidToken
        "Invalid token: Either secret or jwksUri must be provided") :=
  ⟨key_source_selection_amended.1 (fun _ => "rsa-key-1") rsToken
      { secret := some exKey,
        jwksUri := some "https://jwks.example.com/jwks.json" } exNow rfl,
   key_source_selection_amended.2 (fun _ => "rsa-key-1") rsToken {} exNow rfl rfl⟩

/-- **C4**: every token `signJWT` produces carries an `exp` claim
(expiration is structurally mandatory), and when `expiresIn` is falsy the
default is exactly one hour: `exp = iat + 3600` with `iat = now`. -/
theorem sign_exp_mandatory (C : Claims) (o : SignOptions) (now : Int)
    (t : Token) (hsign : signJWT C o now = .ok t) :
    (∃ e, claimLookup t.claims "exp" = some (.num e)) ∧
    (truthyTime o.expiresIn = false →
      claimLookup t.claims "exp" = some (.num (now + 3600)) ∧
      claimLookup t.claims "iat" = some (.num now)) := by
  obtain ⟨_, _, _, hbc, _, _⟩ := signJWT_ok_elim _ _ _ _ hsign
  obtain ⟨e, hee, he⟩ := buildClaims_lookup_exp _ _ _ _ hbc
  refine ⟨⟨e, he⟩, fun hf => ?_⟩
  rw [expResult_default o now hf] at hee
  obtain rfl : now + 3600 = e := by simpa using hee
  exact ⟨he, buildClaims_lookup_iat _ _ _ _ hbc⟩

/-- Witness for C4: the concrete signing (no `expiresIn`) yields
`exp = iat + 3600`. -/
theorem sign_exp_mandatory_witness :
    (∃ e, claimLookup exToken.claims "exp" = some (.num e)) ∧
    (truthyTime exSignOpts.expiresIn = false →
      claimLookup exToken.claims "exp" = some (.num (exNow + 3600)) ∧
      claimLookup exToken.claims "iat" = some (.num exNow)) :=
  sign_exp_mandatory exClaims exSignOpts exNow exToken (by rfl)

/-- **C10**: `expiresIn = 0` is falsy, so the zero offset is ignored and
the one-hour default applies: `exp = now + 3600`, `iat = now`. -/
theorem zero_expiresIn_default (C : Claims) (o : SignOptions) (now : Int)
    (t : Token) (ho : o.expiresIn = some (.num 0))
    (hsign : signJWT C o now = .ok t) :
    claimLookup t.claims "exp" = some (.num (now + 3600)) ∧
    claimLookup t.claims "iat" = some (.num now) := by
  have hf : truthyTime o.expiresIn = false := by rw [ho]; decide
  exact (sign_exp_mandatory C o now t hsign).2 hf

/-- Witness for C10 at a concrete signing with `expiresIn = 0`. -/
theorem zero_expiresIn_default_witness :
    claimLookup
      [("role", JValue.str "admin"), ("iat", JValue.num 500),
       ("exp", JValue.num 4100)] "exp" = some (.num (500 + 3600)) ∧
    claimLookup
      [("role", JValue.str "admin"), ("iat", JValue.num 500),
       ("exp", JValue.num 4100)] "iat" = some (.num 500) := by
  have h := zero_expiresIn_default exClaims
    { secret := exKey, alg := "HS256", expiresIn := some (.num 0) } 500
    ⟨"HS256",
     [("role", .str "admin"), ("iat", .num 500), ("exp", .num 4100)],
     .mac "HS256" exKey
       [("role", .str "admin"), ("iat", .num 500), ("exp", .num 4100)]⟩
    rfl (by rfl)
  exact h

/-- **C6** (code bug): a token signed with `expiresIn = -1` has
`exp = iat - 1` and always fails verification — but not with the
`TokenExpiredError` the claim (with the spec's §7 taxonomy and the
`TokenExpiredError` class the source itself defines) requires.  The `catch`
in `src/verify.ts` classifies by `error.message.includes('expired')`, while
the collaborator's expiry failure says
`"exp" claim timestamp check failed`, which lacks that substring: at the
failing input (signed with `expiresIn = -1` at 1000000, verified one second
later with the correct key and zero clock tolerance) verification fails
with `InvalidTokenError` instead. -/
theorem expired_token_misclassified :
    signJWT exClaims
      { secret := exKey, alg := "HS256", expiresIn := some (.num (-1)) }
      1000000 = .ok expiredToken ∧
    verifyJWT (fun _ => "") expiredToken
      { secret := some exKey, alg := some "HS256", clockTolerance := some 0 }
      1000001 =
      .error (.invalidToken
        "Invalid token: \"exp\" claim timestamp check failed") :=
  ⟨by rfl, by rfl⟩

/-- **C7**: starting from a cache with no entry for `uri`, a first `getJWKS`
call at `t0` performs exactly one fetch and stores the document with
timestamp `t0`; a second call at any `t1` within the TTL window performs no
fetch and returns the cached document, leaving the cache unchanged — two
calls, exactly one network fetch. -/
theorem jwks_cache_single_fetch (f2 : FetchOutcome) (cache0 : JwksCache)
    (uri d : String) (t0 t1 : Int)
    (hmiss : cacheLookup cache0 uri = none)
    (_hle : t0 ≤ t1) (hTTL : t1 - t0 < JWKS_CACHE_TTL) :
    getJWKS (.ok d) cache0 uri t0 =
      ⟨.ok d, setCacheEntry cache0 uri ⟨d, t0⟩, 1⟩ ∧
    getJWKS f2 (setCacheEntry cache0 uri ⟨d, t0⟩) uri t1 =
      ⟨.ok d, setCacheEntry cache0 uri ⟨d, t0⟩, 0⟩ := by
  constructor
  · unfold getJWKS
    rw [hmiss]
    rfl
  · unfold getJWKS
    rw [cacheLookup_set_self]
    simp only [if_pos hTTL]

/-- Witness for C7 at concrete times inside the TTL window. -/
theorem jwks_cache_single_fetch_witness :
    getJWKS (.ok "doc") [] "https://e/jwks.json" 1000 =
      ⟨.ok "doc", setCacheEntry [] "https://e/jwks.json" ⟨"doc", 1000⟩, 1⟩ ∧
    getJWKS (.networkError "down")
      (setCacheEntry [] "https://e/jwks.json" ⟨"doc", 1000⟩)
      "https://e/jwks.json" 200000 =
      ⟨.ok "doc", setCacheEntry [] "https://e/jwks.json" ⟨"doc", 1000⟩, 0⟩ :=
  jwks_cache_single_fetch (.networkError "down") [] "https://e/jwks.json"
    "doc" 1000 200000 rfl (by omega) (by decide)

/-- For any shared-secret algorithm and nonempty key,
`validateKeyForAlgorithm` is exactly the character-length check. -/
theorem validateKey_hs_eq (key alg : String) (halg : alg ∈ hsAlgList)
    (hne : key ≠ "") :
    validateKeyForAlgorithm key alg =
      if key.length < 32 then
        .error "HMAC key should be at least 32 characters for security"
      else .ok () := by
  have h3 : alg = "HS256" ∨ alg = "HS384" ∨ alg = "HS512" := by
    simpa [hsAlgList] using halg
  rcases h3 with rfl | rfl | rfl <;>
    (unfold validateKeyForAlgorithm
     by_cases hlen : key.length < 32 <;>
       simp [hne, hlen, throw, throwThe, MonadExceptOf.throw, Bind.bind,
         Except.bind, strStartsWith, subList, pure, Except.pure])

/-- Counterexample for C8: a secret of 16 two-byte characters is 32 UTF-8
bytes long — at least 32 bytes — yet the key-length check rejects it,
because the source compares `keyString.length` (characters), not bytes. -/
theorem hmac_key_bytes_counterexample :
    wideKey.utf8ByteSize = 32 ∧
    validateKeyForAlgorithm wideKey "HS256" =
      .error "HMAC key should be at least 32 characters for security" ∧
    signJWT exClaims { secret := wideKey, alg := "HS256" } 0 =
      .error (.invalidKey
        "HMAC key should be at least 32 characters for security") := by
  refine ⟨by decide, by rfl, by rfl⟩

/-- **C8 (amended)**: for the shared-secret algorithms the key-length gate
is measured in characters (string length), not bytes: a nonempty secret
passes `validateKeyForAlgorithm` exactly when it has at least 32
characters, and `signJWT` — which runs the validation before signing —
fails with the key-material error (raised as the `InvalidTokenError` class
in the source) whenever the secret is shorter than 32 characters. -/
theorem hmac_key_length_amended :
    (∀ (key alg : String), alg ∈ hsAlgList → key ≠ "" →
      (validateKeyForAlgorithm key alg = .ok () ↔ 32 ≤ key.length)) ∧
    (∀ (payload : Claims) (o : SignOptions) (now : Int),
      o.alg ∈ hsAlgList → o.secret ≠ "" → o.secret.length < 32 →
      signJWT payload o now = .error (.invalidKey
        "HMAC key should be at least 32 characters for security")) := by
  constructor
  · intro key alg halg hne
    rw [validateKey_hs_eq key alg halg hne]
    by_cases hlen : key.length < 32 <;> simp [hlen] <;> omega
  · intro payload o now halg hne hlen
    have hsa : isSecureAlgorithm o.alg = true := by
      have h3 : o.alg = "HS256" ∨ o.alg = "HS384" ∨ o.alg = "HS512" := by
        simpa [hsAlgList] using halg
      rcases h3 with h | h | h <;> rw [h] <;> decide
    unfold signJWT
    rw [if_neg (by simp [hsa]), validateKey_hs_eq o.secret o.alg halg hne,
      if_pos hlen]

/-- Witness for the amended C8: a 32-character key passes, a 31-character
key makes `signJWT` fail with the key-material error. -/
theorem hmac_key_length_amended_witness :
    (validateKeyForAlgorithm exKey "HS256" = .ok () ↔ 32 ≤ exKey.length) ∧
    signJWT exClaims
      { secret := "aaaaaaaaaaaaaaaaaaaaaaaaaaaaaaa", alg := "HS256" } 0 =
      .error (.invalidKey
        "HMAC key should be at least 32 characters for security") :=
  ⟨hmac_key_length_amended.1 exKey "HS256" (by decide) (by decide),
   hmac_key_length_amended.2 exClaims
     { secret := "aaaaaaaaaaaaaaaaaaaaaaaaaaaaaaa", alg := "HS256" } 0
     (by decide) (by decide) (by decide)⟩

/-- Counterexample for C5: at `T = 1700000000` the scenario's violations
list is not the single forbidden-algorithm entry —
`validateJWTSecurity` appends the suspicious-pattern warnings (here the
missing-issuer warning) to the violations it returns. -/
theorem assess_hs256_counterexample :
    ¬ ((generateSecurityAssessment
        [("sub", .str "u"), ("iat", .num 1700000000),
         ("exp", .num 1700003600)]
        "HS256" DEFAULT_SECURITY_POLICY 1700000000).violations =
      ["Forbidden algorithm: HS256"]) := by
  decide

/-- **C5 (amended)**: assessing `{sub:"u", iat:T, exp:T+3600}` with HS256
under the default policy at current time `T` yields violations
`["Forbidden algorithm: HS256", <missing-issuer warning>]` (the warning list
is appended to the violations by `validateJWTSecurity`), one warning, three
recommendations, and score `100 - 2·15 - 1·5 = 65 ≤ 85`. -/
theorem assess_hs256_amended (T : Int) (h : 0 < T) :
    generateSecurityAssessment
        [("sub", .str "u"), ("iat", .num T), ("exp", .num (T + 3600))]
        "HS256" DEFAULT_SECURITY_POLICY T =
      ⟨65,
       ["Forbidden algorithm: HS256",
        "Missing issuer (iss) claim - recommended for token verification"],
       ["Missing issuer (iss) claim - recommended for token verification"],
       ["Consider using RS256 for better security in distributed systems",
        "Add issuer (iss) claim to identify token source",
        "Add audience (aud) claim to specify intended recipients"]⟩ ∧
    (65 : Int) ≤ 85 := by
  refine ⟨?_, by norm_num⟩
  have hT : ¬ (T = 0) := by omega
  have hT2 : ¬ (T + 3600 = 0) := by omega
  have hA1 : ¬ (T - T > 3600) := by omega
  have hA2 : ¬ (T + 3600 - T > 3600) := by omega
  have hA3 : ¬ (T + 3600 - T > 31536000) := by omega
  have hU : "u".length = 1 := rfl
  unfold generateSecurityAssessment validateJWTSecurity detectSuspiciousPatterns
  simp [DEFAULT_SECURITY_POLICY, claimLookup, claimTruthy, claimNum,
    sensitiveFields, toLowerStr, strIncludes, subList, jvShow,
    hT, hT2, hA1, hA2, hA3, hU]

/-- Witness for the amended C5 at `T = 1700000000`. -/
theorem assess_hs256_amended_witness :
    generateSecurityAssessment
        [("sub", .str "u"), ("iat", .num 1700000000),
         ("exp", .num (1700000000 + 3600))]
        "HS256" DEFAULT_SECURITY_POLICY 1700000000 =
      ⟨65,
       ["Forbidden algorithm: HS256",
        "Missing issuer (iss) claim - recommended for token verification"],
       ["Missing issuer (iss) claim - recommended for token verification"],
       ["Consider using RS256 for better security in distributed systems",
        "Add issuer (iss) claim to identify token source",
        "Add audience (aud) claim to specify intended recipients"]⟩ ∧
    (65 : Int) ≤ 85 :=
  assess_hs256_amended 1700000000 (by norm_num)

/-- **C9**: Cognito-profile enterprise verification of a credential whose
claims lack `token_use` (or carry a value other than `"id"`/`"access"`)
fails with the `InvalidTokenError` kind regardless of signature validity:
if `verifyJWT` fails, the failure is wrapped as `InvalidTokenError`; if it
succeeds, the post-verification `token_use` check fails and is wrapped the
same way. -/
theorem cognito_token_use_required (jwksKey : String → String) (t : Token)
    (cfg : EnterpriseConfig) (now : Int)
    (h1 : claimLookup t.claims "token_use" ≠ some (.str "id"))
    (h2 : claimLookup t.claims "token_use" ≠ some (.str "access")) :
    ∃ m, verifyEnterpriseJWT jwksKey t "cognito" cfg {} now =
      .error (.invalidToken m) := by
  have hval : ∀ (m : Claims), m = t.claims →
      ∃ err, validateEnterpriseToken m "cognito" cfg = .error err := by
    intro m hm
    subst hm
    by_cases htr : claimTruthy t.claims "token_use" = true
    · cases hL : claimLookup t.claims "token_use" with
      | none =>
        exfalso
        unfold claimTruthy at htr
        rw [hL] at htr
        simp at htr
      | some v =>
        have hcond : v ≠ JValue.str "id" ∧ v ≠ JValue.str "access" :=
          ⟨fun hveq => h1 (hveq ▸ hL), fun hveq => h2 (hveq ▸ hL)⟩
        refine ⟨"Invalid AWS Cognito token_use: " ++ jvShow v, ?_⟩
        simp only [validateEnterpriseToken]
        rw [if_neg (by simp [htr]), hL]
        simp only [if_pos hcond]
    · refine ⟨"AWS Cognito token missing token_use claim", ?_⟩
      simp only [validateEnterpriseToken]
      rw [if_pos htr]
  unfold verifyEnterpriseJWT
  simp only [enterpriseProviderFor]
  split
  · next payload hv =>
    have hp := verifyJWT_ok_claims _ _ _ _ _ hv
    obtain ⟨err, herr⟩ := hval payload hp
    rw [herr]
    exact ⟨_, rfl⟩
  · exact ⟨_, rfl⟩

/-- Witness for C9 at a concrete credential with no `token_use` claim. -/
theorem cognito_token_use_required_witness :
    claimLookup exToken.claims "token_use" ≠ some (JValue.str "id") ∧
    ∃ m, verifyEnterpriseJWT (fun _ => exKey) exToken "cognito"
      { region := some "us-east-1", userPoolId := some "pool" } {} 0 =
      .error (.invalidToken m) :=
  ⟨by decide,
   cognito_token_use_required (fun _ => exKey) exToken
     { region := some "us-east-1", userPoolId := some "pool" } 0
     (by decide) (by decide)⟩

end SecureJwt
